import Mathlib

/-!
Shallow embedding of two source files of the cesium repository:

* `Source/DynamicScene/DynamicExternalDocument.js` — per-entity aggregate of
  dynamic properties describing an external-document data binding, with the
  CZML packet processor, the merge and the unbind functions.
* `Source/Core/BoundingRectangle.js` — an axis-aligned bounding rectangle with
  `fromPoints`, `union`, `intersect`, `clone` and `equals`.

JavaScript `undefined`-able fields become `Option`; in-place mutation of the
entity becomes explicit state passing (the functions return the updated
entity); JS numbers become `ℚ`; `DeveloperError` throws become `Except`.
-/

/-- Modelled from the spec: `TimeInterval` is an external collaborator (its
source is not shown); the packet processor only constructs one from an
ISO-8601 string and hands it on unchanged, so only its identity as a value
matters here. -/
structure TimeInterval where
  iso8601 : String
  deriving DecidableEq, Repr

/-- `TimeInterval.fromIso8601(iso8601String)` as consumed by the processor. -/
def TimeInterval.fromIso8601 (s : String) : TimeInterval := ⟨s⟩

/-- The CZML value-type tag passed to the `DynamicProperty` constructor:
`CzmlString` or `CzmlNumber` (the two decode strategies used here). -/
inductive CzmlType where
  | CzmlString : CzmlType
  | CzmlNumber : CzmlType
  deriving DecidableEq, Repr

/-- Modelled from the spec: `DynamicProperty` is the temporal container
collaborator (its source is not shown). We record its declared value type and
the sequence of `(raw fragment, ambient interval)` pairs fed to it through
`processCzmlIntervals`, which is all the shown code observes of it. -/
structure DynamicProperty where
  valueType : CzmlType
  fedIntervals : List (String × Option TimeInterval)
  deriving DecidableEq, Repr

/-- `new DynamicProperty(type)` — freshly created, nothing fed yet. -/
def DynamicProperty.new (t : CzmlType) : DynamicProperty :=
  { valueType := t, fedIntervals := [] }

/-- Modelled from the spec: `processCzmlIntervals(rawData, containingInterval)`
accepts a fragment scoped to the ambient interval of the enclosing packet;
we record the call. -/
def DynamicProperty.processCzmlIntervals (p : DynamicProperty)
    (data : String) (interval : Option TimeInterval) : DynamicProperty :=
  { p with fedIntervals := p.fedIntervals ++ [(data, interval)] }

/-- The per-entity external-document aggregate (the `DynamicExternalDocument`
constructor plus the extra fields the processor installs lazily). -/
structure DynamicExternalDocument where
  scope : Option String := none
  polling : Option DynamicProperty := none
  refreshInterval : Option DynamicProperty := none
  eventsource : Option DynamicProperty := none
  eventname : Option DynamicProperty := none
  deriving DecidableEq, Repr

/-- The `packet.external` sub-structure consumed by `processCzmlPacket`:
every field optional, raw fragments kept as uninterpreted strings. -/
structure ExternalData where
  interval : Option String := none
  scope : Option String := none
  polling : Option String := none
  refreshInterval : Option String := none
  eventsource : Option String := none
  eventname : Option String := none
  deriving DecidableEq, Repr

/-- A CZML packet, restricted to the `external` member the processor reads. -/
structure CzmlPacket where
  external : Option ExternalData := none
  deriving DecidableEq, Repr

/-- The entity (`DynamicObject`), restricted to the `external` member this
file reads and writes. -/
structure DynamicObject where
  external : Option DynamicExternalDocument := none
  deriving DecidableEq, Repr

/-- Modelled from the spec: `Core/defaultValue(a, b)` returns `a` unless `a`
is `undefined`, in which case it returns `b`. -/
def defaultValue {α : Type} (a b : Option α) : Option α :=
  match a with
  | some x => some x
  | none => b

/-- The `scope` block of `processCzmlPacket` (lines 42–47): assign the
packet's scope only when the document has none, flagging an update. -/
def DynamicExternalDocument.processScope (external : DynamicExternalDocument)
    (externalData : ExternalData) (externalUpdated : Bool) :
    DynamicExternalDocument × Bool :=
  match externalData.scope with
  | some s =>
    match external.scope with
    | none => ({ external with scope := some s }, true)
    | some _ => (external, externalUpdated)
  | none => (external, externalUpdated)

/-- The `refreshInterval` sub-block of the polling branch (lines 57–64):
create and feed a NUMBER property only when none exists yet. -/
def DynamicExternalDocument.processRefresh (external : DynamicExternalDocument)
    (refreshData : Option String) (interval : Option TimeInterval)
    (externalUpdated : Bool) : DynamicExternalDocument × Bool :=
  match refreshData with
  | some rd =>
    match external.refreshInterval with
    | none =>
      let fresh := (DynamicProperty.new CzmlType.CzmlNumber).processCzmlIntervals rd interval
      ({ external with refreshInterval := some fresh }, true)
    | some _ => (external, externalUpdated)
  | none => (external, externalUpdated)

/-- The polling branch (lines 49–65): lazily create the STRING `polling`
property (flagging an update only on creation), always feed it the packet's
polling fragment, then handle `refreshInterval`. -/
def DynamicExternalDocument.processPollingBranch (external : DynamicExternalDocument)
    (pollingData : String) (refreshData : Option String)
    (interval : Option TimeInterval) (externalUpdated : Bool) :
    DynamicExternalDocument × Bool :=
  match external.polling with
  | none =>
    let fresh := (DynamicProperty.new CzmlType.CzmlString).processCzmlIntervals pollingData interval
    DynamicExternalDocument.processRefresh
      { external with polling := some fresh } refreshData interval true
  | some p =>
    DynamicExternalDocument.processRefresh
      { external with polling := some (p.processCzmlIntervals pollingData interval) }
      refreshData interval externalUpdated

/-- The `eventname` sub-block of the eventsource branch (lines 73–80):
create and feed a STRING property only when none exists yet. -/
def DynamicExternalDocument.processEventname (external : DynamicExternalDocument)
    (eventnameData : Option String) (interval : Option TimeInterval)
    (externalUpdated : Bool) : DynamicExternalDocument × Bool :=
  match eventnameData with
  | some nd =>
    match external.eventname with
    | none =>
      let fresh := (DynamicProperty.new CzmlType.CzmlString).processCzmlIntervals nd interval
      ({ external with eventname := some fresh }, true)
    | some _ => (external, externalUpdated)
  | none => (external, externalUpdated)

/-- The eventsource branch (lines 66–81): lazily create the STRING
`eventsource` property, always feed it, then handle `eventname`. -/
def DynamicExternalDocument.processEventsourceBranch (external : DynamicExternalDocument)
    (eventsourceData : String) (eventnameData : Option String)
    (interval : Option TimeInterval) (externalUpdated : Bool) :
    DynamicExternalDocument × Bool :=
  match external.eventsource with
  | none =>
    let fresh := (DynamicProperty.new CzmlType.CzmlString).processCzmlIntervals eventsourceData interval
    DynamicExternalDocument.processEventname
      { external with eventsource := some fresh } eventnameData interval true
  | some e =>
    DynamicExternalDocument.processEventname
      { external with eventsource := some (e.processCzmlIntervals eventsourceData interval) }
      eventnameData interval externalUpdated

/-- The strategy selection of `processCzmlPacket` (lines 49–81): `polling` is
checked first; only when the packet carries no polling data is `eventsource`
considered (`if … else if …` in the source). -/
def DynamicExternalDocument.processStrategy (external : DynamicExternalDocument)
    (externalData : ExternalData) (interval : Option TimeInterval)
    (externalUpdated : Bool) : DynamicExternalDocument × Bool :=
  match externalData.polling with
  | some pollingData =>
    DynamicExternalDocument.processPollingBranch external pollingData
      externalData.refreshInterval interval externalUpdated
  | none =>
    match externalData.eventsource with
    | some eventsourceData =>
      DynamicExternalDocument.processEventsourceBranch external eventsourceData
        externalData.eventname interval externalUpdated
    | none => (external, externalUpdated)

/-- `DynamicExternalDocument.processCzmlPacket(dynamicObject, packet)`
(lines 24–85): returns the updated entity (in the source the entity is
mutated in place) together with the `externalUpdated` flag the source
returns. -/
def DynamicExternalDocument.processCzmlPacket (dynamicObject : DynamicObject)
    (packet : CzmlPacket) : DynamicObject × Bool :=
  match packet.external with
  | none => (dynamicObject, false)
  | some externalData =>
    let external := dynamicObject.external.getD {}
    let externalUpdated := dynamicObject.external.isNone
    let interval := externalData.interval.map TimeInterval.fromIso8601
    let afterScope := DynamicExternalDocument.processScope external externalData externalUpdated
    let r := DynamicExternalDocument.processStrategy afterScope.1 externalData interval afterScope.2
    ({ dynamicObject with external := some r.1 }, r.2)

/-- Repeated packet application in arrival order (the caller's processing
loop over successive `processCzmlPacket` calls). -/
def DynamicExternalDocument.processPackets (dynamicObject : DynamicObject)
    (packets : List CzmlPacket) : DynamicObject :=
  packets.foldl (fun o p => (DynamicExternalDocument.processCzmlPacket o p).1) dynamicObject

/-- `DynamicExternalDocument.mergeProperties(targetObject, objectToMerge)`
(lines 97–108): if the source entity has an external document, lazily create
the target's and set `target.polling = defaultValue(target.polling,
source.polling)`. -/
def DynamicExternalDocument.mergeProperties (targetObject objectToMerge : DynamicObject) :
    DynamicObject :=
  match objectToMerge.external with
  | none => targetObject
  | some externalToMerge =>
    let targetExternal := targetObject.external.getD {}
    let merged := { targetExternal with
                    polling := defaultValue targetExternal.polling externalToMerge.polling }
    { targetObject with external := some merged }

/-- `DynamicExternalDocument.undefineProperties(dynamicObject)`
(lines 119–121): sets `dynamicObject.external = undefined`. -/
def DynamicExternalDocument.undefineProperties (dynamicObject : DynamicObject) :
    DynamicObject :=
  { dynamicObject with external := none }

/-! ## `Source/Core/BoundingRectangle.js` -/

/-- The error thrown by the geometry functions (`DeveloperError` in the
source; the spec calls it `InvalidArgumentError`). -/
structure DeveloperError where
  message : String
  deriving DecidableEq, Repr

/-- A 2D point with `x`, `y` components (the `Cartesian2` collaborator as
consumed by `fromPoints`); JS numbers modelled as `ℚ`. -/
structure Cartesian2 where
  x : ℚ
  y : ℚ
  deriving DecidableEq, Repr

/-- `new BoundingRectangle(x, y, width, height)`. -/
structure BoundingRectangle where
  x : ℚ := 0
  y : ℚ := 0
  width : ℚ := 0
  height : ℚ := 0
  deriving DecidableEq, Repr

/-- `true` exactly when the computation returned normally. -/
def isOkE {α : Type} (e : Except DeveloperError α) : Bool :=
  match e with
  | .ok _ => true
  | .error _ => false

/-- `BoundingRectangle.union(left, right)` (lines 74–95): throws when either
argument is absent, otherwise encloses both rectangles (the optional `result`
parameter only chooses the output object and is elided in this value
semantics). -/
def BoundingRectangle.union (left right : Option BoundingRectangle) :
    Except DeveloperError BoundingRectangle :=
  match left with
  | none => .error ⟨"left is required."⟩
  | some l =>
    match right with
    | none => .error ⟨"right is required."⟩
    | some r =>
      let lowerLeftX := min l.x r.x
      let lowerLeftY := min l.y r.y
      let upperRightX := max (l.x + l.width) (r.x + r.width)
      let upperRightY := max (l.y + l.height) (r.y + r.height)
      .ok { x := lowerLeftX, y := lowerLeftY,
            width := upperRightX - lowerLeftX, height := upperRightY - lowerLeftY }

/-- `BoundingRectangle.equals(left, right)` (lines 132–140): reference
equality (both absent) or componentwise equality of two present rectangles. -/
def BoundingRectangle.equals (left right : Option BoundingRectangle) : Bool :=
  match left, right with
  | some l, some r =>
    decide (l.x = r.x) && decide (l.y = r.y) &&
      decide (l.width = r.width) && decide (l.height = r.height)
  | none, none => true
  | _, _ => false

/-- `BoundingRectangle.fromPoints(positions)` (lines 154–196): throws when
`positions` is absent or has fewer than two entries, otherwise scans the tail
with the source's `<`/`>` comparisons to find componentwise extrema. -/
def BoundingRectangle.fromPoints (positions : Option (List Cartesian2)) :
    Except DeveloperError BoundingRectangle :=
  match positions with
  | none => .error ⟨"positions is required."⟩
  | some [] => .error ⟨"positions must have a length greater than one."⟩
  | some [_] => .error ⟨"positions must have a length greater than one."⟩
  | some (p0 :: rest) =>
    let final := rest.foldl
      (fun (acc : ℚ × ℚ × ℚ × ℚ) p =>
        let minimumX := if p.x < acc.1 then p.x else acc.1
        let minimumY := if p.y < acc.2.1 then p.y else acc.2.1
        let maximumX := if p.x > acc.2.2.1 then p.x else acc.2.2.1
        let maximumY := if p.y > acc.2.2.2 then p.y else acc.2.2.2
        (minimumX, minimumY, maximumX, maximumY))
      (p0.x, p0.y, p0.x, p0.y)
    .ok { x := final.1, y := final.2.1,
          width := final.2.2.1 - final.1, height := final.2.2.2 - final.2.1 }

/-- `BoundingRectangle.intersect(rect1, rect2)` (lines 239–246): throws when
either argument is absent, otherwise the separating-axis test. -/
def BoundingRectangle.intersect (rect1 rect2 : Option BoundingRectangle) :
    Except DeveloperError Bool :=
  match rect1 with
  | none => .error ⟨"rect1 is required."⟩
  | some r1 =>
    match rect2 with
    | none => .error ⟨"rect2 is required."⟩
    | some r2 =>
      .ok (!(decide (r1.x > r2.x + r2.width) ||
             decide (r1.x + r1.width < r2.x) ||
             decide (r1.y + r1.height < r2.y) ||
             decide (r1.y > r2.y + r2.height)))

/-! ## Field-frame lemmas for the packet processor -/

lemma processRefresh_scope (e : DynamicExternalDocument) (rd : Option String)
    (i : Option TimeInterval) (u : Bool) :
    (DynamicExternalDocument.processRefresh e rd i u).1.scope = e.scope := by
  cases rd with
  | none => rfl
  | some d => cases h : e.refreshInterval <;> simp [DynamicExternalDocument.processRefresh, h]

lemma processRefresh_polling (e : DynamicExternalDocument) (rd : Option String)
    (i : Option TimeInterval) (u : Bool) :
    (DynamicExternalDocument.processRefresh e rd i u).1.polling = e.polling := by
  cases rd with
  | none => rfl
  | some d => cases h : e.refreshInterval <;> simp [DynamicExternalDocument.processRefresh, h]

lemma processRefresh_eventsource (e : DynamicExternalDocument) (rd : Option String)
    (i : Option TimeInterval) (u : Bool) :
    (DynamicExternalDocument.processRefresh e rd i u).1.eventsource = e.eventsource := by
  cases rd with
  | none => rfl
  | some d => cases h : e.refreshInterval <;> simp [DynamicExternalDocument.processRefresh, h]

lemma processRefresh_eventname (e : DynamicExternalDocument) (rd : Option String)
    (i : Option TimeInterval) (u : Bool) :
    (DynamicExternalDocument.processRefresh e rd i u).1.eventname = e.eventname := by
  cases rd with
  | none => rfl
  | some d => cases h : e.refreshInterval <;> simp [DynamicExternalDocument.processRefresh, h]

lemma processRefresh_keeps (e : DynamicExternalDocument) (rd : Option String)
    (i : Option TimeInterval) (u : Bool) (r : DynamicProperty)
    (h : e.refreshInterval = some r) :
    (DynamicExternalDocument.processRefresh e rd i u).1.refreshInterval = some r := by
  cases rd with
  | none => simpa [DynamicExternalDocument.processRefresh] using h
  | some d => simp [DynamicExternalDocument.processRefresh, h]

lemma processRefresh_creates (e : DynamicExternalDocument) (d : String)
    (i : Option TimeInterval) (u : Bool) (h : e.refreshInterval = none) :
    (DynamicExternalDocument.processRefresh e (some d) i u).1.refreshInterval =
      some ((DynamicProperty.new CzmlType.CzmlNumber).processCzmlIntervals d i) := by
  simp [DynamicExternalDocument.processRefresh, h]

lemma pollingBranch_scope (e : DynamicExternalDocument) (d : String) (rd : Option String)
    (i : Option TimeInterval) (u : Bool) :
    (DynamicExternalDocument.processPollingBranch e d rd i u).1.scope = e.scope := by
  cases h : e.polling <;>
    simp [DynamicExternalDocument.processPollingBranch, h, processRefresh_scope]

lemma pollingBranch_eventsource (e : DynamicExternalDocument) (d : String) (rd : Option String)
    (i : Option TimeInterval) (u : Bool) :
    (DynamicExternalDocument.processPollingBranch e d rd i u).1.eventsource = e.eventsource := by
  cases h : e.polling <;>
    simp [DynamicExternalDocument.processPollingBranch, h, processRefresh_eventsource]

lemma pollingBranch_eventname (e : DynamicExternalDocument) (d : String) (rd : Option String)
    (i : Option TimeInterval) (u : Bool) :
    (DynamicExternalDocument.processPollingBranch e d rd i u).1.eventname = e.eventname := by
  cases h : e.polling <;>
    simp [DynamicExternalDocument.processPollingBranch, h, processRefresh_eventname]

lemma pollingBranch_polling (e : DynamicExternalDocument) (d : String) (rd : Option String)
    (i : Option TimeInterval) (u : Bool) :
    (DynamicExternalDocument.processPollingBranch e d rd i u).1.polling =
      some ((e.polling.getD (DynamicProperty.new CzmlType.CzmlString)).processCzmlIntervals d i) := by
  cases h : e.polling <;>
    simp [DynamicExternalDocument.processPollingBranch, h, processRefresh_polling]

lemma pollingBranch_keeps_refresh (e : DynamicExternalDocument) (d : String) (rd : Option String)
    (i : Option TimeInterval) (u : Bool) (r : DynamicProperty)
    (h : e.refreshInterval = some r) :
    (DynamicExternalDocument.processPollingBranch e d rd i u).1.refreshInterval = some r := by
  cases hp : e.polling <;>
    · simp only [DynamicExternalDocument.processPollingBranch, hp]
      exact processRefresh_keeps _ _ _ _ _ (by simpa using h)

lemma pollingBranch_creates_refresh (e : DynamicExternalDocument) (d rd : String)
    (i : Option TimeInterval) (u : Bool) (h : e.refreshInterval = none) :
    (DynamicExternalDocument.processPollingBranch e d (some rd) i u).1.refreshInterval =
      some ((DynamicProperty.new CzmlType.CzmlNumber).processCzmlIntervals rd i) := by
  cases hp : e.polling <;>
    · simp only [DynamicExternalDocument.processPollingBranch, hp]
      exact processRefresh_creates _ _ _ _ (by simpa using h)

lemma processEventname_scope (e : DynamicExternalDocument) (nd : Option String)
    (i : Option TimeInterval) (u : Bool) :
    (DynamicExternalDocument.processEventname e nd i u).1.scope = e.scope := by
  cases nd with
  | none => rfl
  | some d => cases h : e.eventname <;> simp [DynamicExternalDocument.processEventname, h]

lemma processEventname_polling (e : DynamicExternalDocument) (nd : Option String)
    (i : Option TimeInterval) (u : Bool) :
    (DynamicExternalDocument.processEventname e nd i u).1.polling = e.polling := by
  cases nd with
  | none => rfl
  | some d => cases h : e.eventname <;> simp [DynamicExternalDocument.processEventname, h]

lemma processEventname_refresh (e : DynamicExternalDocument) (nd : Option String)
    (i : Option TimeInterval) (u : Bool) :
    (DynamicExternalDocument.processEventname e nd i u).1.refreshInterval = e.refreshInterval := by
  cases nd with
  | none => rfl
  | some d => cases h : e.eventname <;> simp [DynamicExternalDocument.processEventname, h]

lemma processEventname_eventsource (e : DynamicExternalDocument) (nd : Option String)
    (i : Option TimeInterval) (u : Bool) :
    (DynamicExternalDocument.processEventname e nd i u).1.eventsource = e.eventsource := by
  cases nd with
  | none => rfl
  | some d => cases h : e.eventname <;> simp [DynamicExternalDocument.processEventname, h]

lemma eventsourceBranch_scope (e : DynamicExternalDocument) (d : String) (nd : Option String)
    (i : Option TimeInterval) (u : Bool) :
    (DynamicExternalDocument.processEventsourceBranch e d nd i u).1.scope = e.scope := by
  cases h : e.eventsource <;>
    simp [DynamicExternalDocument.processEventsourceBranch, h, processEventname_scope]

lemma eventsourceBranch_polling (e : DynamicExternalDocument) (d : String) (nd : Option String)
    (i : Option TimeInterval) (u : Bool) :
    (DynamicExternalDocument.processEventsourceBranch e d nd i u).1.polling = e.polling := by
  cases h : e.eventsource <;>
    simp [DynamicExternalDocument.processEventsourceBranch, h, processEventname_polling]

lemma eventsourceBranch_refresh (e : DynamicExternalDocument) (d : String) (nd : Option String)
    (i : Option TimeInterval) (u : Bool) :
    (DynamicExternalDocument.processEventsourceBranch e d nd i u).1.refreshInterval =
      e.refreshInterval := by
  cases h : e.eventsource <;>
    simp [DynamicExternalDocument.processEventsourceBranch, h, processEventname_refresh]

lemma eventsourceBranch_eventsource (e : DynamicExternalDocument) (d : String)
    (nd : Option String) (i : Option TimeInterval) (u : Bool) :
    (DynamicExternalDocument.processEventsourceBranch e d nd i u).1.eventsource =
      some ((e.eventsource.getD (DynamicProperty.new CzmlType.CzmlString)).processCzmlIntervals d i) := by
  cases h : e.eventsource <;>
    simp [DynamicExternalDocument.processEventsourceBranch, h, processEventname_eventsource]

lemma processScope_polling (e : DynamicExternalDocument) (ed : ExternalData) (u : Bool) :
    (DynamicExternalDocument.processScope e ed u).1.polling = e.polling := by
  cases hs : ed.scope with
  | none => simp [DynamicExternalDocument.processScope, hs]
  | some s => cases h : e.scope <;> simp [DynamicExternalDocument.processScope, hs, h]

lemma processScope_refresh (e : DynamicExternalDocument) (ed : ExternalData) (u : Bool) :
    (DynamicExternalDocument.processScope e ed u).1.refreshInterval = e.refreshInterval := by
  cases hs : ed.scope with
  | none => simp [DynamicExternalDocument.processScope, hs]
  | some s => cases h : e.scope <;> simp [DynamicExternalDocument.processScope, hs, h]

lemma processScope_eventsource (e : DynamicExternalDocument) (ed : ExternalData) (u : Bool) :
    (DynamicExternalDocument.processScope e ed u).1.eventsource = e.eventsource := by
  cases hs : ed.scope with
  | none => simp [DynamicExternalDocument.processScope, hs]
  | some s => cases h : e.scope <;> simp [DynamicExternalDocument.processScope, hs, h]

lemma processScope_eventname (e : DynamicExternalDocument) (ed : ExternalData) (u : Bool) :
    (DynamicExternalDocument.processScope e ed u).1.eventname = e.eventname := by
  cases hs : ed.scope with
  | none => simp [DynamicExternalDocument.processScope, hs]
  | some s => cases h : e.scope <;> simp [DynamicExternalDocument.processScope, hs, h]

lemma processScope_keeps_scope (e : DynamicExternalDocument) (ed : ExternalData) (u : Bool)
    (s : String) (h : e.scope = some s) :
    (DynamicExternalDocument.processScope e ed u).1.scope = some s := by
  cases hs : ed.scope with
  | none => simpa [DynamicExternalDocument.processScope, hs] using h
  | some t => simp [DynamicExternalDocument.processScope, hs, h]

lemma processStrategy_scope (e : DynamicExternalDocument) (ed : ExternalData)
    (i : Option TimeInterval) (u : Bool) :
    (DynamicExternalDocument.processStrategy e ed i u).1.scope = e.scope := by
  cases hp : ed.polling with
  | some d => simp [DynamicExternalDocument.processStrategy, hp, pollingBranch_scope]
  | none =>
    cases he : ed.eventsource with
    | some d => simp [DynamicExternalDocument.processStrategy, hp, he, eventsourceBranch_scope]
    | none => simp [DynamicExternalDocument.processStrategy, hp, he]

lemma processCzmlPacket_external (obj : DynamicObject) (packet : CzmlPacket)
    (ed : ExternalData) (h : packet.external = some ed) :
    (DynamicExternalDocument.processCzmlPacket obj packet).1.external =
      some (DynamicExternalDocument.processStrategy
              (DynamicExternalDocument.processScope (obj.external.getD {}) ed
                obj.external.isNone).1
              ed (ed.interval.map TimeInterval.fromIso8601)
              (DynamicExternalDocument.processScope (obj.external.getD {}) ed
                obj.external.isNone).2).1 := by
  simp [DynamicExternalDocument.processCzmlPacket, h]

/-! ## Claims about `DynamicExternalDocument` -/

/-- C1: for every pair of entities where the source has an external document,
`mergeProperties` assigns the source's polling property to the target's
document only if the target's polling is absent (an existing polling is kept
unchanged), and no other field of either document — scope, refreshInterval,
eventsource, eventname — is read, written, or propagated by the merge. -/
theorem mergeProperties_only_polling (target source : DynamicObject)
    (sext : DynamicExternalDocument) (h : source.external = some sext) :
    ((DynamicExternalDocument.mergeProperties target source).external.isSome = true) ∧
    ((target.external.getD {}).polling = none →
      ((DynamicExternalDocument.mergeProperties target source).external.getD {}).polling =
        sext.polling) ∧
    (∀ p, (target.external.getD {}).polling = some p →
      ((DynamicExternalDocument.mergeProperties target source).external.getD {}).polling =
        some p) ∧
    ((DynamicExternalDocument.mergeProperties target source).external.getD {}).scope =
      (target.external.getD {}).scope ∧
    ((DynamicExternalDocument.mergeProperties target source).external.getD {}).refreshInterval =
      (target.external.getD {}).refreshInterval ∧
    ((DynamicExternalDocument.mergeProperties target source).external.getD {}).eventsource =
      (target.external.getD {}).eventsource ∧
    ((DynamicExternalDocument.mergeProperties target source).external.getD {}).eventname =
      (target.external.getD {}).eventname ∧
    (∀ sext2 : DynamicExternalDocument, sext2.polling = sext.polling →
      DynamicExternalDocument.mergeProperties target { external := some sext2 } =
        DynamicExternalDocument.mergeProperties target source) := by
  refine ⟨by simp [DynamicExternalDocument.mergeProperties, h], ?_, ?_, ?_, ?_, ?_, ?_, ?_⟩
  · intro hnone
    simp [DynamicExternalDocument.mergeProperties, h, defaultValue, hnone]
  · intro p hp
    simp [DynamicExternalDocument.mergeProperties, h, defaultValue, hp]
  · simp [DynamicExternalDocument.mergeProperties, h]
  · simp [DynamicExternalDocument.mergeProperties, h]
  · simp [DynamicExternalDocument.mergeProperties, h]
  · simp [DynamicExternalDocument.mergeProperties, h]
  · intro sext2 h2
    simp [DynamicExternalDocument.mergeProperties, h, h2]

/-- C1 witness: merging a polling-bearing source into an empty target. -/
theorem mergeProperties_only_polling_witness :
    ((DynamicExternalDocument.mergeProperties { external := none }
      { external := some { polling := some (DynamicProperty.new CzmlType.CzmlString) } }).external.isSome = true) ∧
    ((({ external := none } : DynamicObject).external.getD {}).polling = none →
      ((DynamicExternalDocument.mergeProperties { external := none }
        { external := some { polling := some (DynamicProperty.new CzmlType.CzmlString) } }).external.getD {}).polling =
        ({ polling := some (DynamicProperty.new CzmlType.CzmlString) } : DynamicExternalDocument).polling) ∧
    (∀ p, (({ external := none } : DynamicObject).external.getD {}).polling = some p →
      ((DynamicExternalDocument.mergeProperties { external := none }
        { external := some { polling := some (DynamicProperty.new CzmlType.CzmlString) } }).external.getD {}).polling =
        some p) ∧
    ((DynamicExternalDocument.mergeProperties { external := none }
      { external := some { polling := some (DynamicProperty.new CzmlType.CzmlString) } }).external.getD {}).scope =
      (({ external := none } : DynamicObject).external.getD {}).scope ∧
    ((DynamicExternalDocument.mergeProperties { external := none }
      { external := some { polling := some (DynamicProperty.new CzmlType.CzmlString) } }).external.getD {}).refreshInterval =
      (({ external := none } : DynamicObject).external.getD {}).refreshInterval ∧
    ((DynamicExternalDocument.mergeProperties { external := none }
      { external := some { polling := some (DynamicProperty.new CzmlType.CzmlString) } }).external.getD {}).eventsource =
      (({ external := none } : DynamicObject).external.getD {}).eventsource ∧
    ((DynamicExternalDocument.mergeProperties { external := none }
      { external := some { polling := some (DynamicProperty.new CzmlType.CzmlString) } }).external.getD {}).eventname =
      (({ external := none } : DynamicObject).external.getD {}).eventname ∧
    (∀ sext2 : DynamicExternalDocument,
      sext2.polling = ({ polling := some (DynamicProperty.new CzmlType.CzmlString) } : DynamicExternalDocument).polling →
      DynamicExternalDocument.mergeProperties { external := none } { external := some sext2 } =
        DynamicExternalDocument.mergeProperties { external := none }
          { external := some { polling := some (DynamicProperty.new CzmlType.CzmlString) } }) :=
  mergeProperties_only_polling { external := none }
    { external := some { polling := some (DynamicProperty.new CzmlType.CzmlString) } }
    { polling := some (DynamicProperty.new CzmlType.CzmlString) } rfl

lemma processCzmlPacket_keeps_scope (obj : DynamicObject) (packet : CzmlPacket)
    (ext : DynamicExternalDocument) (s : String)
    (h1 : obj.external = some ext) (h2 : ext.scope = some s) :
    ∃ ext', (DynamicExternalDocument.processCzmlPacket obj packet).1.external = some ext' ∧
      ext'.scope = some s := by
  cases hp : packet.external with
  | none =>
    refine ⟨ext, ?_, h2⟩
    simp [DynamicExternalDocument.processCzmlPacket, hp, h1]
  | some ed =>
    refine ⟨_, processCzmlPacket_external obj packet ed hp, ?_⟩
    rw [processStrategy_scope]
    exact processScope_keeps_scope _ _ _ _ (by simp [h1, h2])

/-- C2: the scope of an entity's external document is write-once — once some
`processCzmlPacket` call has set it, every later sequence of packets (whatever
scope values they carry) leaves the stored scope unchanged. -/
theorem scope_write_once (obj : DynamicObject) (ext : DynamicExternalDocument) (s : String)
    (h1 : obj.external = some ext) (h2 : ext.scope = some s) (packets : List CzmlPacket) :
    ∃ ext', (DynamicExternalDocument.processPackets obj packets).external = some ext' ∧
      ext'.scope = some s := by
  induction packets generalizing obj ext with
  | nil => exact ⟨ext, by simpa [DynamicExternalDocument.processPackets] using h1, h2⟩
  | cons p ps ih =>
    obtain ⟨ext', h1', h2'⟩ := processCzmlPacket_keeps_scope obj p ext s h1 h2
    have hrest := ih _ _ h1' h2'
    simpa [DynamicExternalDocument.processPackets] using hrest

/-- C2 witness: processing `scope: "A"` then `scope: "B"` on the same entity
leaves the scope equal to `"A"`. -/
theorem scope_write_once_witness :
    ∃ ext', (DynamicExternalDocument.processPackets
        (DynamicExternalDocument.processCzmlPacket { external := none }
          { external := some { scope := some "A" } }).1
        [{ external := some { scope := some "B" } }]).external = some ext' ∧
      ext'.scope = some "A" :=
  scope_write_once
    (DynamicExternalDocument.processCzmlPacket { external := none }
      { external := some { scope := some "A" } }).1
    { scope := some "A" } "A" (by decide) rfl
    [{ external := some { scope := some "B" } }]

/-- C3: within one `processCzmlPacket` call, a packet declaring both polling
and eventsource data only takes the polling branch — the polling property is
created/fed, while the document's eventsource and eventname fields are left
exactly as they were before the call. -/
theorem polling_shadows_eventsource_in_packet (obj : DynamicObject) (packet : CzmlPacket)
    (ed : ExternalData) (d es : String)
    (h1 : packet.external = some ed) (h2 : ed.polling = some d)
    (h3 : ed.eventsource = some es) :
    ∃ ext', (DynamicExternalDocument.processCzmlPacket obj packet).1.external = some ext' ∧
      ext'.eventsource = (obj.external.getD {}).eventsource ∧
      ext'.eventname = (obj.external.getD {}).eventname ∧
      ext'.polling = some (((obj.external.getD {}).polling.getD
        (DynamicProperty.new CzmlType.CzmlString)).processCzmlIntervals d
        (ed.interval.map TimeInterval.fromIso8601)) := by
  refine ⟨_, processCzmlPacket_external obj packet ed h1, ?_, ?_, ?_⟩
  · simp [DynamicExternalDocument.processStrategy, h2, pollingBranch_eventsource,
      processScope_eventsource]
  · simp [DynamicExternalDocument.processStrategy, h2, pollingBranch_eventname,
      processScope_eventname]
  · simp [DynamicExternalDocument.processStrategy, h2, pollingBranch_polling,
      processScope_polling]

/-- C3 witness: a packet carrying polling, eventsource, and eventname data at
once, applied to a fresh entity, feeds only the polling property. -/
theorem polling_shadows_eventsource_in_packet_witness :
    ∃ ext', (DynamicExternalDocument.processCzmlPacket { external := none }
        { external := some { polling := some "url1", eventsource := some "s1", eventname := some "n1" } }).1.external =
        some ext' ∧
      ext'.eventsource = (({ external := none } : DynamicObject).external.getD {}).eventsource ∧
      ext'.eventname = (({ external := none } : DynamicObject).external.getD {}).eventname ∧
      ext'.polling = some (((({ external := none } : DynamicObject).external.getD {}).polling.getD
        (DynamicProperty.new CzmlType.CzmlString)).processCzmlIntervals "url1"
        (({ polling := some "url1", eventsource := some "s1", eventname := some "n1" } : ExternalData).interval.map TimeInterval.fromIso8601)) :=
  polling_shadows_eventsource_in_packet { external := none }
    { external := some { polling := some "url1", eventsource := some "s1", eventname := some "n1" } }
    { polling := some "url1", eventsource := some "s1", eventname := some "n1" }
    "url1" "s1" rfl rfl rfl

/-- C4: when polling is already established on the entity's document, a later
separate packet that declares only eventsource data still creates and
populates the eventsource property, so both strategies coexist across
packets; the polling-first precedence applies only within a single packet. -/
theorem eventsource_populated_cross_packet (obj : DynamicObject)
    (ext : DynamicExternalDocument) (p : DynamicProperty) (packet : CzmlPacket)
    (ed : ExternalData) (es : String)
    (h1 : obj.external = some ext) (h2 : ext.polling = some p)
    (h3 : ext.eventsource = none) (h4 : packet.external = some ed)
    (h5 : ed.polling = none) (h6 : ed.eventsource = some es) :
    ∃ ext', (DynamicExternalDocument.processCzmlPacket obj packet).1.external = some ext' ∧
      ext'.polling = some p ∧
      ext'.eventsource = some ((DynamicProperty.new CzmlType.CzmlString).processCzmlIntervals es
        (ed.interval.map TimeInterval.fromIso8601)) := by
  refine ⟨_, processCzmlPacket_external obj packet ed h4, ?_, ?_⟩
  · simp [DynamicExternalDocument.processStrategy, h5, h6, eventsourceBranch_polling,
      processScope_polling, h1, h2]
  · simp [DynamicExternalDocument.processStrategy, h5, h6, eventsourceBranch_eventsource,
      processScope_eventsource, h1, h3]

/-- C4 witness: `{polling: "url1"}` then `{eventsource: "stream1"}` in two
separate calls leaves both properties populated. -/
theorem eventsource_populated_cross_packet_witness :
    ∃ ext', (DynamicExternalDocument.processCzmlPacket
        (DynamicExternalDocument.processCzmlPacket { external := none }
          { external := some { polling := some "url1" } }).1
        { external := some { eventsource := some "stream1" } }).1.external = some ext' ∧
      ext'.polling = some ((DynamicProperty.new CzmlType.CzmlString).processCzmlIntervals "url1" none) ∧
      ext'.eventsource = some ((DynamicProperty.new CzmlType.CzmlString).processCzmlIntervals "stream1"
        (({ eventsource := some "stream1" } : ExternalData).interval.map TimeInterval.fromIso8601)) :=
  eventsource_populated_cross_packet
    (DynamicExternalDocument.processCzmlPacket { external := none }
      { external := some { polling := some "url1" } }).1
    { polling := some ((DynamicProperty.new CzmlType.CzmlString).processCzmlIntervals "url1" none) }
    ((DynamicProperty.new CzmlType.CzmlString).processCzmlIntervals "url1" none)
    { external := some { eventsource := some "stream1" } }
    { eventsource := some "stream1" } "stream1"
    (by decide) rfl rfl rfl rfl rfl

/-- C5: `refreshInterval` is write-once at the property level — a packet
declaring polling together with refreshInterval creates a NUMBER-typed
property and populates it when the document has none yet, and every later
packet carrying refreshInterval data leaves an existing refreshInterval
property entirely unchanged (its intervals are not refined). -/
theorem refreshInterval_write_once (obj : DynamicObject) (packet : CzmlPacket)
    (ed : ExternalData) (h1 : packet.external = some ed) :
    (∀ d rd, ed.polling = some d → ed.refreshInterval = some rd →
      (obj.external.getD {}).refreshInterval = none →
      ∃ ext', (DynamicExternalDocument.processCzmlPacket obj packet).1.external = some ext' ∧
        ext'.refreshInterval = some ((DynamicProperty.new CzmlType.CzmlNumber).processCzmlIntervals
          rd (ed.interval.map TimeInterval.fromIso8601))) ∧
    (∀ r, (obj.external.getD {}).refreshInterval = some r →
      ∃ ext', (DynamicExternalDocument.processCzmlPacket obj packet).1.external = some ext' ∧
        ext'.refreshInterval = some r) := by
  constructor
  · intro d rd hp hr hnone
    refine ⟨_, processCzmlPacket_external obj packet ed h1, ?_⟩
    simp only [DynamicExternalDocument.processStrategy, hp, hr]
    exact pollingBranch_creates_refresh _ _ _ _ _ (by rw [processScope_refresh]; exact hnone)
  · intro r hr
    refine ⟨_, processCzmlPacket_external obj packet ed h1, ?_⟩
    cases hp : ed.polling with
    | some d =>
      simp only [DynamicExternalDocument.processStrategy, hp]
      exact pollingBranch_keeps_refresh _ _ _ _ _ _ (by rw [processScope_refresh]; exact hr)
    | none =>
      cases he : ed.eventsource with
      | some d =>
        simp only [DynamicExternalDocument.processStrategy, hp, he]
        rw [eventsourceBranch_refresh, processScope_refresh]
        exact hr
      | none =>
        simp only [DynamicExternalDocument.processStrategy, hp, he]
        rw [processScope_refresh]
        exact hr

/-- C5 witness: a packet with polling and refreshInterval on a fresh entity
creates the NUMBER property; the same claim instance also covers the keep
branch vacuously. -/
theorem refreshInterval_write_once_witness :
    (∀ d rd, ({ polling := some "url1", refreshInterval := some "30" } : ExternalData).polling = some d →
      ({ polling := some "url1", refreshInterval := some "30" } : ExternalData).refreshInterval = some rd →
      ((({ external := none } : DynamicObject)).external.getD {}).refreshInterval = none →
      ∃ ext', (DynamicExternalDocument.processCzmlPacket { external := none }
          { external := some { polling := some "url1", refreshInterval := some "30" } }).1.external = some ext' ∧
        ext'.refreshInterval = some ((DynamicProperty.new CzmlType.CzmlNumber).processCzmlIntervals
          rd (({ polling := some "url1", refreshInterval := some "30" } : ExternalData).interval.map TimeInterval.fromIso8601))) ∧
    (∀ r, ((({ external := none } : DynamicObject)).external.getD {}).refreshInterval = some r →
      ∃ ext', (DynamicExternalDocument.processCzmlPacket { external := none }
          { external := some { polling := some "url1", refreshInterval := some "30" } }).1.external = some ext' ∧
        ext'.refreshInterval = some r) :=
  refreshInterval_write_once { external := none }
    { external := some { polling := some "url1", refreshInterval := some "30" } }
    { polling := some "url1", refreshInterval := some "30" } rfl

/-- C6: a packet whose `external` sub-structure is absent makes
`processCzmlPacket` return `false` and leave the entity unchanged (the
function is total, so no exception is possible). -/
theorem processCzmlPacket_no_external (obj : DynamicObject) (packet : CzmlPacket)
    (h : packet.external = none) :
    DynamicExternalDocument.processCzmlPacket obj packet = (obj, false) := by
  simp [DynamicExternalDocument.processCzmlPacket, h]

/-- C6 witness: the empty packet on an arbitrary concrete entity. -/
theorem processCzmlPacket_no_external_witness :
    DynamicExternalDocument.processCzmlPacket
      { external := some { scope := some "A" } } { external := none } =
      ({ external := some { scope := some "A" } }, false) :=
  processCzmlPacket_no_external { external := some { scope := some "A" } }
    { external := none } rfl

/-- C7: `undefineProperties` unconditionally sets the entity's external
document reference to absent, in every starting state — no partial removal
and no error case. -/
theorem undefineProperties_clears (obj : DynamicObject) :
    DynamicExternalDocument.undefineProperties obj = { external := none } := rfl

/-! ## Fold lemmas for `fromPoints` -/

/-- Running minimum of `f` over a list, seeded with `a` (the loop of
`fromPoints` restricted to one component). -/
def foldMin (f : Cartesian2 → ℚ) (a : ℚ) (l : List Cartesian2) : ℚ :=
  l.foldl (fun m p => min m (f p)) a

/-- Running maximum of `f` over a list, seeded with `a`. -/
def foldMax (f : Cartesian2 → ℚ) (a : ℚ) (l : List Cartesian2) : ℚ :=
  l.foldl (fun m p => max m (f p)) a

lemma if_lt_eq_min (a b : ℚ) : (if a < b then a else b) = min b a := by
  rcases lt_or_le a b with h | h
  · rw [if_pos h, min_eq_right h.le]
  · rw [if_neg (not_lt.2 h), min_eq_left h]

lemma if_gt_eq_max (a b : ℚ) : (if a > b then a else b) = max b a := by
  rcases lt_or_le b a with h | h
  · rw [if_pos h, max_eq_right h.le]
  · rw [if_neg (not_lt.2 h), max_eq_left h]

lemma foldMin_le_init (f : Cartesian2 → ℚ) (l : List Cartesian2) : ∀ a, foldMin f a l ≤ a := by
  induction l with
  | nil => intro a; exact le_refl a
  | cons q l ih =>
    intro a
    exact le_trans (ih (min a (f q))) (min_le_left _ _)

lemma foldMin_le_mem (f : Cartesian2 → ℚ) (l : List Cartesian2) :
    ∀ a p, p ∈ l → foldMin f a l ≤ f p := by
  induction l with
  | nil => intro a p hp; cases hp
  | cons q l ih =>
    intro a p hp
    rcases List.mem_cons.mp hp with h | h
    · subst h
      exact le_trans (foldMin_le_init f l (min a (f p))) (min_le_right _ _)
    · exact ih _ p h

lemma foldMin_attained (f : Cartesian2 → ℚ) (l : List Cartesian2) :
    ∀ a, foldMin f a l = a ∨ ∃ p ∈ l, foldMin f a l = f p := by
  induction l with
  | nil => intro a; exact Or.inl rfl
  | cons q l ih =>
    intro a
    have hstep : foldMin f a (q :: l) = foldMin f (min a (f q)) l := rfl
    rcases ih (min a (f q)) with h | ⟨p, hp, h⟩
    · rcases min_choice a (f q) with hm | hm
      · exact Or.inl (by rw [hstep, h, hm])
      · exact Or.inr ⟨q, List.mem_cons_self q l, by rw [hstep, h, hm]⟩
    · exact Or.inr ⟨p, List.mem_cons_of_mem _ hp, by rw [hstep, h]⟩

lemma foldMax_init_le (f : Cartesian2 → ℚ) (l : List Cartesian2) : ∀ a, a ≤ foldMax f a l := by
  induction l with
  | nil => intro a; exact le_refl a
  | cons q l ih =>
    intro a
    exact le_trans (le_max_left _ _) (ih (max a (f q)))

lemma foldMax_mem_le (f : Cartesian2 → ℚ) (l : List Cartesian2) :
    ∀ a p, p ∈ l → f p ≤ foldMax f a l := by
  induction l with
  | nil => intro a p hp; cases hp
  | cons q l ih =>
    intro a p hp
    rcases List.mem_cons.mp hp with h | h
    · subst h
      exact le_trans (le_max_right _ _) (foldMax_init_le f l (max a (f p)))
    · exact ih _ p h

lemma foldMax_attained (f : Cartesian2 → ℚ) (l : List Cartesian2) :
    ∀ a, foldMax f a l = a ∨ ∃ p ∈ l, foldMax f a l = f p := by
  induction l with
  | nil => intro a; exact Or.inl rfl
  | cons q l ih =>
    intro a
    have hstep : foldMax f a (q :: l) = foldMax f (max a (f q)) l := rfl
    rcases ih (max a (f q)) with h | ⟨p, hp, h⟩
    · rcases max_choice a (f q) with hm | hm
      · exact Or.inl (by rw [hstep, h, hm])
      · exact Or.inr ⟨q, List.mem_cons_self q l, by rw [hstep, h, hm]⟩
    · exact Or.inr ⟨p, List.mem_cons_of_mem _ hp, by rw [hstep, h]⟩

lemma fromPoints_foldl (rest : List Cartesian2) :
    ∀ a b c d : ℚ,
      rest.foldl (fun (acc : ℚ × ℚ × ℚ × ℚ) p =>
          (if p.x < acc.1 then p.x else acc.1,
           if p.y < acc.2.1 then p.y else acc.2.1,
           if p.x > acc.2.2.1 then p.x else acc.2.2.1,
           if p.y > acc.2.2.2 then p.y else acc.2.2.2)) (a, b, c, d) =
        (foldMin (fun p => p.x) a rest, foldMin (fun p => p.y) b rest,
         foldMax (fun p => p.x) c rest, foldMax (fun p => p.y) d rest) := by
  induction rest with
  | nil => intro a b c d; rfl
  | cons q l ih =>
    intro a b c d
    have harg : (if q.x < a then q.x else a, if q.y < b then q.y else b,
        if q.x > c then q.x else c, if q.y > d then q.y else d) =
        ((min a q.x, min b q.y, max c q.x, max d q.y) : ℚ × ℚ × ℚ × ℚ) := by
      rw [if_lt_eq_min, if_lt_eq_min, if_gt_eq_max, if_gt_eq_max]
    show List.foldl _ (if q.x < a then q.x else a, if q.y < b then q.y else b,
        if q.x > c then q.x else c, if q.y > d then q.y else d) l = _
    rw [harg, ih]
    rfl

lemma fromPoints_cons (p0 q : Cartesian2) (rest : List Cartesian2) :
    BoundingRectangle.fromPoints (some (p0 :: q :: rest)) =
      .ok { x := foldMin (fun p => p.x) p0.x (q :: rest),
            y := foldMin (fun p => p.y) p0.y (q :: rest),
            width := foldMax (fun p => p.x) p0.x (q :: rest) - foldMin (fun p => p.x) p0.x (q :: rest),
            height := foldMax (fun p => p.y) p0.y (q :: rest) - foldMin (fun p => p.y) p0.y (q :: rest) } := by
  simp only [BoundingRectangle.fromPoints]
  rw [fromPoints_foldl]

/-! ## Claims about `BoundingRectangle` -/

/-- C8: for every list of two or more points, `fromPoints` returns the
rectangle whose corner is the componentwise minimum of the points and whose
width and height span to the componentwise maximum (every point lies inside
and each extreme is attained by some point); in particular on
`(0,0), (2,3), (-1,5)` it yields `x = -1, y = 0, width = 3, height = 5`. -/
theorem fromPoints_componentwise_extrema :
    (∀ ps : List Cartesian2, 2 ≤ ps.length →
      ∃ r, BoundingRectangle.fromPoints (some ps) = .ok r ∧
        (∀ p ∈ ps, r.x ≤ p.x ∧ r.y ≤ p.y ∧ p.x ≤ r.x + r.width ∧ p.y ≤ r.y + r.height) ∧
        (∃ p ∈ ps, p.x = r.x) ∧ (∃ p ∈ ps, p.y = r.y) ∧
        (∃ p ∈ ps, p.x = r.x + r.width) ∧ (∃ p ∈ ps, p.y = r.y + r.height)) ∧
    BoundingRectangle.fromPoints (some [⟨0, 0⟩, ⟨2, 3⟩, ⟨-1, 5⟩]) = .ok ⟨-1, 0, 3, 5⟩ := by
  constructor
  · intro ps hlen
    rcases ps with _ | ⟨p0, _ | ⟨q, rest⟩⟩
    · simp at hlen
    · simp at hlen
    · refine ⟨_, fromPoints_cons p0 q rest, ?_, ?_, ?_, ?_, ?_⟩
      · intro p hp
        dsimp only
        have hxw : foldMin (fun p => p.x) p0.x (q :: rest) +
            (foldMax (fun p => p.x) p0.x (q :: rest) - foldMin (fun p => p.x) p0.x (q :: rest)) =
            foldMax (fun p => p.x) p0.x (q :: rest) := by ring
        have hyh : foldMin (fun p => p.y) p0.y (q :: rest) +
            (foldMax (fun p => p.y) p0.y (q :: rest) - foldMin (fun p => p.y) p0.y (q :: rest)) =
            foldMax (fun p => p.y) p0.y (q :: rest) := by ring
        rw [hxw, hyh]
        rcases List.mem_cons.mp hp with h | h
        · subst h
          exact ⟨foldMin_le_init _ _ _, foldMin_le_init _ _ _,
            foldMax_init_le _ _ _, foldMax_init_le _ _ _⟩
        · exact ⟨foldMin_le_mem _ _ _ _ h, foldMin_le_mem _ _ _ _ h,
            foldMax_mem_le _ _ _ _ h, foldMax_mem_le _ _ _ _ h⟩
      · rcases foldMin_attained (fun p => p.x) (q :: rest) p0.x with h | ⟨p, hp, h⟩
        · exact ⟨p0, List.mem_cons_self _ _, h.symm⟩
        · exact ⟨p, List.mem_cons_of_mem _ hp, h.symm⟩
      · rcases foldMin_attained (fun p => p.y) (q :: rest) p0.y with h | ⟨p, hp, h⟩
        · exact ⟨p0, List.mem_cons_self _ _, h.symm⟩
        · exact ⟨p, List.mem_cons_of_mem _ hp, h.symm⟩
      · have hxw : foldMin (fun p => p.x) p0.x (q :: rest) +
            (foldMax (fun p => p.x) p0.x (q :: rest) - foldMin (fun p => p.x) p0.x (q :: rest)) =
            foldMax (fun p => p.x) p0.x (q :: rest) := by ring
        dsimp only
        rw [hxw]
        rcases foldMax_attained (fun p => p.x) (q :: rest) p0.x with h | ⟨p, hp, h⟩
        · exact ⟨p0, List.mem_cons_self _ _, h.symm⟩
        · exact ⟨p, List.mem_cons_of_mem _ hp, h.symm⟩
      · have hyh : foldMin (fun p => p.y) p0.y (q :: rest) +
            (foldMax (fun p => p.y) p0.y (q :: rest) - foldMin (fun p => p.y) p0.y (q :: rest)) =
            foldMax (fun p => p.y) p0.y (q :: rest) := by ring
        dsimp only
        rw [hyh]
        rcases foldMax_attained (fun p => p.y) (q :: rest) p0.y with h | ⟨p, hp, h⟩
        · exact ⟨p0, List.mem_cons_self _ _, h.symm⟩
        · exact ⟨p, List.mem_cons_of_mem _ hp, h.symm⟩
  · norm_num [BoundingRectangle.fromPoints]

/-- C9: the geometry functions fail exactly when a required argument is
absent — `union` when `left` or `right` is absent, `intersect` when either
rectangle is absent, `fromPoints` additionally on fewer than two points —
and succeed whenever all required arguments are present. -/
theorem geometry_errors_iff_args_absent :
    (∀ r, isOkE (BoundingRectangle.union none r) = false) ∧
    (∀ l, isOkE (BoundingRectangle.union l none) = false) ∧
    (∀ a b : BoundingRectangle, isOkE (BoundingRectangle.union (some a) (some b)) = true) ∧
    (∀ r, isOkE (BoundingRectangle.intersect none r) = false) ∧
    (∀ l, isOkE (BoundingRectangle.intersect l none) = false) ∧
    (∀ a b : BoundingRectangle, isOkE (BoundingRectangle.intersect (some a) (some b)) = true) ∧
    isOkE (BoundingRectangle.fromPoints none) = false ∧
    (∀ ps : List Cartesian2, ps.length ≤ 1 →
      isOkE (BoundingRectangle.fromPoints (some ps)) = false) ∧
    (∀ ps : List Cartesian2, 2 ≤ ps.length →
      isOkE (BoundingRectangle.fromPoints (some ps)) = true) := by
  refine ⟨fun r => rfl, ?_, fun a b => rfl, fun r => rfl, ?_, fun a b => rfl, rfl, ?_, ?_⟩
  · intro l; cases l <;> rfl
  · intro l; cases l <;> rfl
  · intro ps h
    rcases ps with _ | ⟨p, _ | ⟨q, rest⟩⟩
    · rfl
    · rfl
    · simp at h
  · intro ps h
    rcases ps with _ | ⟨p, _ | ⟨q, rest⟩⟩
    · simp at h
    · simp at h
    · rfl

/-- C9 witness: too few points fail; two points succeed. -/
theorem geometry_errors_iff_args_absent_witness :
    isOkE (BoundingRectangle.fromPoints (some [⟨0, 0⟩])) = false ∧
    isOkE (BoundingRectangle.fromPoints (some [⟨0, 0⟩, ⟨1, 1⟩])) = true :=
  ⟨geometry_errors_iff_args_absent.2.2.2.2.2.2.2.1 [⟨0, 0⟩] (by decide),
   geometry_errors_iff_args_absent.2.2.2.2.2.2.2.2 [⟨0, 0⟩, ⟨1, 1⟩] (by decide)⟩

/-- C10: `union` is commutative — for every two defined rectangles the two
results are componentwise equal (`BoundingRectangle.equals` is `true`). -/
theorem union_commutative (a b : BoundingRectangle) :
    ∃ u v, BoundingRectangle.union (some a) (some b) = .ok u ∧
      BoundingRectangle.union (some b) (some a) = .ok v ∧
      BoundingRectangle.equals (some u) (some v) = true := by
  refine ⟨_, _, rfl, rfl, ?_⟩
  simp only [BoundingRectangle.equals, Bool.and_eq_true, decide_eq_true_eq]
  refine ⟨⟨⟨?_, ?_⟩, ?_⟩, ?_⟩
  · exact min_comm a.x b.x
  · exact min_comm a.y b.y
  · rw [min_comm a.x b.x, max_comm (a.x + a.width) (b.x + b.width)]
  · rw [min_comm a.y b.y, max_comm (a.y + a.height) (b.y + b.height)]

/-- C8 witness: the three points of the claim instantiate the general part. -/
theorem fromPoints_componentwise_extrema_witness :
    ∃ r, BoundingRectangle.fromPoints (some [⟨0, 0⟩, ⟨2, 3⟩, ⟨-1, 5⟩]) = .ok r ∧
      (∀ p ∈ ([⟨0, 0⟩, ⟨2, 3⟩, ⟨-1, 5⟩] : List Cartesian2),
        r.x ≤ p.x ∧ r.y ≤ p.y ∧ p.x ≤ r.x + r.width ∧ p.y ≤ r.y + r.height) ∧
      (∃ p ∈ ([⟨0, 0⟩, ⟨2, 3⟩, ⟨-1, 5⟩] : List Cartesian2), p.x = r.x) ∧
      (∃ p ∈ ([⟨0, 0⟩, ⟨2, 3⟩, ⟨-1, 5⟩] : List Cartesian2), p.y = r.y) ∧
      (∃ p ∈ ([⟨0, 0⟩, ⟨2, 3⟩, ⟨-1, 5⟩] : List Cartesian2), p.x = r.x + r.width) ∧
      (∃ p ∈ ([⟨0, 0⟩, ⟨2, 3⟩, ⟨-1, 5⟩] : List Cartesian2), p.y = r.y + r.height) :=
  fromPoints_componentwise_extrema.1 [⟨0, 0⟩, ⟨2, 3⟩, ⟨-1, 5⟩] (by decide)
